import Mathlib

/-!
Shallow embedding of `assemble_vintf.cpp` (class `android::vintf::AssembleVintf`).

The tool reads one input text, tries to parse it as a HAL manifest and then as
a compatibility matrix, injects build-time flags sourced from environment
variables, writes the serialized result to the output stream, and optionally
checks it against a reference ("check") file.

External collaborators (the XML converters `gHalManifestConverter` and
`gCompatibilityMatrixConverter`, the `parse` overloads for flag values,
`HalManifest::generateCompatibleMatrix` and `HalManifest::checkCompatibility`)
live outside this file's source; they are modelled as an abstract capability
record `Ext` over which all theorems quantify.

Observable behaviour is an event trace: writes to the output stream, flushes
of the output stream, writes to the error stream, and the read of the check
file. Each orchestration function returns its event trace together with its
boolean result, mirroring the C++ control flow line by line.
-/

namespace AssembleVintf

/-- `SchemaType` from libvintf: a manifest or matrix is device-side or
framework-side. -/
inductive SchemaType
  | DEVICE
  | FRAMEWORK
deriving DecidableEq, Repr

/-- `Version` from libvintf: a major.minor version number. -/
structure Version where
  majorVer : Nat
  minorVer : Nat
deriving DecidableEq, Repr

/-- `KernelSepolicyVersion` from libvintf: a single kernel policy version
number. -/
abbrev KernelSepolicyVersion := Nat

/-- `Sepolicy` from libvintf: a kernel policy version together with the set of
userspace (major, minor) sepolicy version pairs, as constructed by
`Sepolicy(kernelSepolicyVers, \x7b\x7bmajorVer, minorVer\x7d\x7d)` in
`assembleCompatibilityMatrix`. -/
structure Sepolicy where
  kernelSepolicyVersion : KernelSepolicyVersion
  sepolicyVersions : List (Nat × Nat)
deriving DecidableEq, Repr

/-- The `device` sub-object of `HalManifest`: holds `mSepolicyVersion`, the
field written by `getFlag("BOARD_SEPOLICY_VERS", ...)`. -/
structure HalManifestDevice where
  mSepolicyVersion : Version
deriving DecidableEq, Repr

/-- `HalManifest`: schema type, device sub-object, and an opaque payload
standing for all remaining parsed content (HALs, etc.), which this tool never
touches. -/
structure HalManifest where
  mType : SchemaType
  device : HalManifestDevice
  payload : String
deriving DecidableEq, Repr

/-- The `framework` sub-object of `CompatibilityMatrix`: holds `mSepolicy`,
the field written by `assembleCompatibilityMatrix`. -/
structure MatrixFramework where
  mSepolicy : Sepolicy
deriving DecidableEq, Repr

/-- `CompatibilityMatrix`: schema type, framework sub-object, and an opaque
payload standing for all remaining parsed content, never touched by this
tool. -/
structure CompatibilityMatrix where
  mType : SchemaType
  framework : MatrixFramework
  payload : String
deriving DecidableEq, Repr

/-- External capabilities consumed by `assemble_vintf.cpp` but implemented
elsewhere in libvintf: the two XML converters (parse direction returns the
object or the converter's `lastError()` text; serialize direction returns
text), matrix synthesis, the compatibility check (`Except.error` carries the
diagnostic), and the `parse` overloads used by `getFlag` for the two flag
value types. All theorems quantify over an arbitrary `Ext`. -/
structure Ext where
  parseHalManifest : String → Except String HalManifest
  parseMatrix : String → Except String CompatibilityMatrix
  serializeHalManifest : HalManifest → String
  serializeMatrix : CompatibilityMatrix → String
  generateCompatibleMatrix : HalManifest → CompatibilityMatrix
  checkCompatibility : HalManifest → CompatibilityMatrix → Except String Unit
  parseVersion : String → Option Version
  parseKernelSepolicyVersion : String → Option KernelSepolicyVersion

/-- Run configuration: `mOutputMatrix` (the `-m` flag), the contents of the
check file when one was opened (`mCheckFile.is_open()`), and the process
environment as a partial map (`getenv`). -/
structure Config where
  outputMatrix : Bool
  checkFile : Option String
  env : String → Option String

/-- Observable events of a run: a write to the output stream, a flush of the
output stream, a write to the error stream, and the read of the check file. -/
inductive Ev
  | out (s : String)
  | flush
  | err (s : String)
  | readCheckFile
deriving DecidableEq, Repr

/-- Concatenation of everything written to the output stream in a trace. -/
def outText : List Ev → String
  | [] => ""
  | Ev.out s :: rest => s ++ outText rest
  | _ :: rest => outText rest

/-- All error-stream writes in a trace, in order. -/
def errTexts : List Ev → List String
  | [] => []
  | Ev.err s :: rest => s :: errTexts rest
  | _ :: rest => errTexts rest

/-- `AssembleVintf::getFlag`: look up environment variable `key`; if absent,
print `Required <key> flag.` to stderr and fail; if present but the value does
not parse (via the type-directed `parse` overload, here the explicit
`parseVal`), print `Cannot parse <value>.` to stderr and fail; otherwise
return the parsed value with no output. -/
def getFlag {α : Type} (parseVal : String → Option α) (env : String → Option String)
    (key : String) : List Ev × Option α :=
  match env key with
  | none => ([Ev.err ("Required " ++ key ++ " flag.")], none)
  | some envValue =>
    match parseVal envValue with
    | none => ([Ev.err ("Cannot parse " ++ envValue ++ ".")], none)
    | some v => ([], some v)

/-- The flag-injection prefix of `AssembleVintf::assembleHalManifest`
(lines 66–70): for a device manifest, `BOARD_SEPOLICY_VERS` is required and
written into `device.mSepolicyVersion`; otherwise the manifest is untouched.
`none` means the function returned `false` there. -/
def injectManifest (ext : Ext) (cfg : Config) (m : HalManifest) :
    List Ev × Option HalManifest :=
  if m.mType = SchemaType.DEVICE then
    match getFlag ext.parseVersion cfg.env "BOARD_SEPOLICY_VERS" with
    | (evs, none) => (evs, none)
    | (evs, some v) =>
      (evs, some { m with device := { m.device with mSepolicyVersion := v } })
  else ([], some m)

/-- The fixed advisory comment block printed before a generated skeleton
matrix (lines 78–84 of `assembleHalManifest`). -/
def skeletonComment : String :=
  "<!-- \n    Autogenerated skeleton compatibility matrix. \n    Use with caution. Modify it to suit your needs.\n    All HALs are set to optional.\n    Many entries other than HALs are zero-filled and\n    require human attention. \n-->\n"

/-- The emission step of `assembleHalManifest` (lines 72–89): with `-m`,
synthesize a matrix, run the self-consistency check (failure only prints a
`FATAL ERROR` diagnostic), then write the advisory comment and the serialized
matrix; without `-m`, write the serialized manifest. Either way the output is
flushed. -/
def emitManifest (ext : Ext) (cfg : Config) (m : HalManifest) : List Ev :=
  if cfg.outputMatrix then
    (match ext.checkCompatibility m (ext.generateCompatibleMatrix m) with
      | Except.error e =>
        [Ev.err ("FATAL ERROR: cannot generate a compatible matrix: " ++ e)]
      | Except.ok _ => []) ++
    [Ev.out (skeletonComment ++ ext.serializeMatrix (ext.generateCompatibleMatrix m)),
      Ev.flush]
  else
    [Ev.out (ext.serializeHalManifest m), Ev.flush]

/-- The reference-check suffix of `assembleHalManifest` (lines 91–102): if a
check file is open, read it, parse it as a compatibility matrix and check the
manifest against it; parse failure or incompatibility print a diagnostic and
fail the function. -/
def checkAgainstMatrix (ext : Ext) (cfg : Config) (m : HalManifest) :
    List Ev × Bool :=
  match cfg.checkFile with
  | none => ([], true)
  | some content =>
    match ext.parseMatrix content with
    | Except.error e =>
      ([Ev.readCheckFile,
        Ev.err ("Cannot parse check file as a compatibility matrix: " ++ e)], false)
    | Except.ok checkMatrix =>
      match ext.checkCompatibility m checkMatrix with
      | Except.error e =>
        ([Ev.readCheckFile, Ev.err ("Not compatible: " ++ e)], false)
      | Except.ok _ => ([Ev.readCheckFile], true)

/-- `AssembleVintf::assembleHalManifest`: inject flags, emit, then run the
optional reference check. -/
def assembleHalManifest (ext : Ext) (cfg : Config) (halManifest : HalManifest) :
    List Ev × Bool :=
  match injectManifest ext cfg halManifest with
  | (evs, none) => (evs, false)
  | (evs, some m) =>
    (evs ++ emitManifest ext cfg m ++ (checkAgainstMatrix ext cfg m).1,
      (checkAgainstMatrix ext cfg m).2)

/-- The flag-injection prefix of `AssembleVintf::assembleCompatibilityMatrix`
(lines 110–121): for a framework matrix, `BOARD_SEPOLICY_VERS` and
`POLICYVERS` are both required and `framework.mSepolicy` is replaced by
`Sepolicy(kernelSepolicyVers, \x7b\x7bmajorVer, minorVer\x7d\x7d)`; otherwise
the matrix is untouched. `none` means the function returned `false` there. -/
def injectMatrix (ext : Ext) (cfg : Config) (matrix : CompatibilityMatrix) :
    List Ev × Option CompatibilityMatrix :=
  if matrix.mType = SchemaType.FRAMEWORK then
    match getFlag ext.parseVersion cfg.env "BOARD_SEPOLICY_VERS" with
    | (evs, none) => (evs, none)
    | (evs1, some sepolicyVers) =>
      match getFlag ext.parseKernelSepolicyVersion cfg.env "POLICYVERS" with
      | (evs2, none) => (evs1 ++ evs2, none)
      | (evs2, some kernelSepolicyVers) =>
        (evs1 ++ evs2, some { matrix with framework :=
          { mSepolicy := { kernelSepolicyVersion := kernelSepolicyVers,
                           sepolicyVersions :=
                             [(sepolicyVers.majorVer, sepolicyVers.minorVer)] } } })
  else ([], some matrix)

/-- The reference-check suffix of `assembleCompatibilityMatrix`
(lines 125–136): if a check file is open, read it, parse it as a HAL manifest
and check it against the matrix; parse failure or incompatibility print a
diagnostic and fail the function. -/
def checkAgainstManifest (ext : Ext) (cfg : Config) (matrix : CompatibilityMatrix) :
    List Ev × Bool :=
  match cfg.checkFile with
  | none => ([], true)
  | some content =>
    match ext.parseHalManifest content with
    | Except.error e =>
      ([Ev.readCheckFile,
        Ev.err ("Cannot parse check file as a HAL manifest: " ++ e)], false)
    | Except.ok checkManifest =>
      match ext.checkCompatibility checkManifest matrix with
      | Except.error e =>
        ([Ev.readCheckFile, Ev.err ("Not compatible: " ++ e)], false)
      | Except.ok _ => ([Ev.readCheckFile], true)

/-- `AssembleVintf::assembleCompatibilityMatrix`: inject flags, write the
serialized matrix, flush, then run the optional reference check. -/
def assembleCompatibilityMatrix (ext : Ext) (cfg : Config)
    (matrix : CompatibilityMatrix) : List Ev × Bool :=
  match injectMatrix ext cfg matrix with
  | (evs, none) => (evs, false)
  | (evs, some m) =>
    (evs ++ [Ev.out (ext.serializeMatrix m), Ev.flush] ++
      (checkAgainstManifest ext cfg m).1,
      (checkAgainstManifest ext cfg m).2)

/-- The converter's `lastError()` as printed by the unknown-format diagnostic:
the parse error when the parse failed. After a successful parse the C++
converter's `lastError()` text is library state not determined by this file's
source; it is modelled as the empty string, and no claim concerns a path where
that case is printed. -/
def lastErrorOf {α : Type} : Except String α → String
  | Except.error e => e
  | Except.ok _ => ""

/-- The unknown-format diagnostic of `AssembleVintf::assemble`
(lines 163–167), carrying both converters' error texts. -/
def unknownFormatMsg (manifestError matrixError : String) : String :=
  "Input file has unknown format.\nError when attempting to convert to manifest: " ++
    manifestError ++
    "\nError when attempting to convert to compatibility matrix: " ++
    matrixError ++ "\n"

/-- `AssembleVintf::assemble` after the input file was read into
`fileContent`: try the manifest parse and manifest assembly; if that does not
return `true`, try the matrix parse and matrix assembly; if that does not
return `true` either, print the unknown-format diagnostic and fail. -/
def assemble (ext : Ext) (cfg : Config) (fileContent : String) : List Ev × Bool :=
  let manRes := ext.parseHalManifest fileContent
  let manStep : List Ev × Bool :=
    match manRes with
    | Except.ok halManifest => assembleHalManifest ext cfg halManifest
    | Except.error _ => ([], false)
  if manStep.2 then (manStep.1, true)
  else
    let matRes := ext.parseMatrix fileContent
    let matStep : List Ev × Bool :=
      match matRes with
      | Except.ok matrix => assembleCompatibilityMatrix ext cfg matrix
      | Except.error _ => ([], false)
    if matStep.2 then (manStep.1 ++ matStep.1, true)
    else
      (manStep.1 ++ matStep.1 ++
        [Ev.err (unknownFormatMsg (lastErrorOf manRes) (lastErrorOf matRes))], false)

/-- The optional reference check of `assembleHalManifest` passes: no check
file is open, or the check file parses as a matrix and the manifest is
compatible with it. -/
def refMatrixCheckPasses (ext : Ext) (cfg : Config) (m : HalManifest) : Prop :=
  match cfg.checkFile with
  | none => True
  | some content =>
    match ext.parseMatrix content with
    | Except.error _ => False
    | Except.ok checkMatrix => ext.checkCompatibility m checkMatrix = Except.ok ()

/-! ### Helper lemmas -/

theorem outText_append (a b : List Ev) :
    outText (a ++ b) = outText a ++ outText b := by
  induction a with
  | nil => simp [outText]
  | cons e rest ih => cases e <;> simp [outText, ih, String.append_assoc]

theorem errTexts_append (a b : List Ev) :
    errTexts (a ++ b) = errTexts a ++ errTexts b := by
  induction a with
  | nil => simp [errTexts]
  | cons e rest ih => cases e <;> simp [errTexts, ih]

theorem injectManifest_framework (ext : Ext) (cfg : Config) (m : HalManifest)
    (h : m.mType = SchemaType.FRAMEWORK) :
    injectManifest ext cfg m = ([], some m) := by
  simp [injectManifest, h]

theorem injectManifest_device_ok (ext : Ext) (cfg : Config) (m : HalManifest)
    (s : String) (v : Version) (htype : m.mType = SchemaType.DEVICE)
    (henv : cfg.env "BOARD_SEPOLICY_VERS" = some s)
    (hv : ext.parseVersion s = some v) :
    injectManifest ext cfg m =
      ([], some { m with device := { m.device with mSepolicyVersion := v } }) := by
  simp [injectManifest, htype, getFlag, henv, hv]

theorem assembleHalManifest_inj (ext : Ext) (cfg : Config)
    (m m' : HalManifest) (evs : List Ev)
    (h : injectManifest ext cfg m = (evs, some m')) :
    assembleHalManifest ext cfg m =
      (evs ++ emitManifest ext cfg m' ++ (checkAgainstMatrix ext cfg m').1,
        (checkAgainstMatrix ext cfg m').2) := by
  unfold assembleHalManifest
  rw [h]

theorem assembleHalManifest_inj_fail (ext : Ext) (cfg : Config)
    (m : HalManifest) (evs : List Ev)
    (h : injectManifest ext cfg m = (evs, none)) :
    assembleHalManifest ext cfg m = (evs, false) := by
  unfold assembleHalManifest
  rw [h]

theorem assembleCompatibilityMatrix_inj (ext : Ext) (cfg : Config)
    (mx mx' : CompatibilityMatrix) (evs : List Ev)
    (h : injectMatrix ext cfg mx = (evs, some mx')) :
    assembleCompatibilityMatrix ext cfg mx =
      (evs ++ [Ev.out (ext.serializeMatrix mx'), Ev.flush] ++
          (checkAgainstManifest ext cfg mx').1,
        (checkAgainstManifest ext cfg mx').2) := by
  unfold assembleCompatibilityMatrix
  rw [h]

theorem assembleCompatibilityMatrix_inj_fail (ext : Ext) (cfg : Config)
    (mx : CompatibilityMatrix) (evs : List Ev)
    (h : injectMatrix ext cfg mx = (evs, none)) :
    assembleCompatibilityMatrix ext cfg mx = (evs, false) := by
  unfold assembleCompatibilityMatrix
  rw [h]

theorem checkAgainstMatrix_passes (ext : Ext) (cfg : Config) (m : HalManifest)
    (h : refMatrixCheckPasses ext cfg m) :
    (checkAgainstMatrix ext cfg m).2 = true ∧
      outText (checkAgainstMatrix ext cfg m).1 = "" ∧
      errTexts (checkAgainstMatrix ext cfg m).1 = [] := by
  unfold refMatrixCheckPasses at h
  unfold checkAgainstMatrix
  cases hc : cfg.checkFile with
  | none => simp [outText, errTexts]
  | some content =>
    rw [hc] at h
    cases hp : ext.parseMatrix content with
    | error e => simp only [hp] at h
    | ok checkMatrix =>
      simp only [hp] at h
      simp [hp, h, outText, errTexts]

theorem assemble_manifest_ok (ext : Ext) (cfg : Config) (text : String)
    (m : HalManifest) (hp : ext.parseHalManifest text = Except.ok m)
    (hok : (assembleHalManifest ext cfg m).2 = true) :
    assemble ext cfg text = ((assembleHalManifest ext cfg m).1, true) := by
  simp [assemble, hp, hok]

theorem assemble_fallthrough_ok (ext : Ext) (cfg : Config) (text : String)
    (m : HalManifest) (mx : CompatibilityMatrix)
    (hp : ext.parseHalManifest text = Except.ok m)
    (hfail : (assembleHalManifest ext cfg m).2 = false)
    (hq : ext.parseMatrix text = Except.ok mx)
    (hok : (assembleCompatibilityMatrix ext cfg mx).2 = true) :
    assemble ext cfg text =
      ((assembleHalManifest ext cfg m).1 ++
        (assembleCompatibilityMatrix ext cfg mx).1, true) := by
  simp [assemble, hp, hfail, hq, hok]

theorem assemble_noManifest_matrix_fail (ext : Ext) (cfg : Config) (text : String)
    (e1 : String) (mx : CompatibilityMatrix)
    (hp : ext.parseHalManifest text = Except.error e1)
    (hq : ext.parseMatrix text = Except.ok mx)
    (hfail : (assembleCompatibilityMatrix ext cfg mx).2 = false) :
    assemble ext cfg text =
      ((assembleCompatibilityMatrix ext cfg mx).1 ++
        [Ev.err (unknownFormatMsg e1 "")], false) := by
  simp [assemble, hp, hq, hfail, lastErrorOf]

/-! ### Concrete fixtures used by witnesses and counterexamples -/

def mDev : HalManifest :=
  { mType := SchemaType.DEVICE, device := { mSepolicyVersion := { majorVer := 0, minorVer := 0 } }, payload := "dm" }

def mFwk : HalManifest :=
  { mType := SchemaType.FRAMEWORK, device := { mSepolicyVersion := { majorVer := 0, minorVer := 0 } }, payload := "fm" }

def mxDev : CompatibilityMatrix :=
  { mType := SchemaType.DEVICE,
    framework := { mSepolicy := { kernelSepolicyVersion := 0, sepolicyVersions := [] } },
    payload := "dx" }

def mxFwk : CompatibilityMatrix :=
  { mType := SchemaType.FRAMEWORK,
    framework := { mSepolicy := { kernelSepolicyVersion := 7, sepolicyVersions := [(5, 5)] } },
    payload := "fx" }

def envFull : String → Option String := fun k =>
  if k = "BOARD_SEPOLICY_VERS" then some "25.0"
  else if k = "POLICYVERS" then some "30" else none

def envEmpty : String → Option String := fun _ => none

def extBase : Ext where
  parseHalManifest := fun _ => Except.error "manifest syntax error"
  parseMatrix := fun _ => Except.error "matrix syntax error"
  serializeHalManifest := fun m => "MANIFEST:" ++ m.payload
  serializeMatrix := fun mx => "MATRIX:" ++ mx.payload
  generateCompatibleMatrix := fun m =>
    { mType := SchemaType.FRAMEWORK,
      framework := { mSepolicy := { kernelSepolicyVersion := 0, sepolicyVersions := [] } },
      payload := "gen:" ++ m.payload }
  checkCompatibility := fun _ _ => Except.ok ()
  parseVersion := fun s => if s = "25.0" then some { majorVer := 25, minorVer := 0 } else none
  parseKernelSepolicyVersion := fun s => if s = "30" then some 30 else none

/-! ### Claims -/

/-- C6: for every required build-flag lookup with `getFlag`, an absent
environment variable fails with a diagnostic naming that variable and an
unparseable value fails with a diagnostic containing the raw environment
value; in both cases no value is produced for assembly. -/
theorem c6_getFlag_diagnostics {α β : Type}
    (parseA : String → Option α) (parseB : String → Option β)
    (env : String → Option String) (key1 key2 s : String)
    (h1 : env key1 = none) (h2 : env key2 = some s) (h3 : parseB s = none) :
    getFlag parseA env key1 = ([Ev.err ("Required " ++ key1 ++ " flag.")], none) ∧
    getFlag parseB env key2 = ([Ev.err ("Cannot parse " ++ s ++ ".")], none) := by
  constructor
  · simp [getFlag, h1]
  · simp [getFlag, h2, h3]

theorem c6_getFlag_diagnostics_witness :
    getFlag (extBase.parseVersion) envEmpty "BOARD_SEPOLICY_VERS" =
      ([Ev.err ("Required " ++ "BOARD_SEPOLICY_VERS" ++ " flag.")], none) ∧
    getFlag (extBase.parseKernelSepolicyVersion)
        (fun k => if k = "POLICYVERS" then some "bogus" else none) "POLICYVERS" =
      ([Ev.err ("Cannot parse " ++ "bogus" ++ ".")], none) :=
  c6_getFlag_diagnostics extBase.parseVersion extBase.parseKernelSepolicyVersion
    (fun k => if k = "POLICYVERS" then some "bogus" else none)
    "BOARD_SEPOLICY_VERS" "POLICYVERS" "bogus" (by simp [envEmpty])
    (by simp) (by simp [extBase])

/-- C7: when both the manifest parse and the matrix parse of the input fail,
the run fails, writes nothing to the output stream, and prints a diagnostic
that contains both parsers' error messages. -/
theorem c7_unknown_format (ext : Ext) (cfg : Config) (text e1 e2 : String)
    (h1 : ext.parseHalManifest text = Except.error e1)
    (h2 : ext.parseMatrix text = Except.error e2) :
    assemble ext cfg text = ([Ev.err (unknownFormatMsg e1 e2)], false) ∧
    outText (assemble ext cfg text).1 = "" ∧
    (∃ a b c, unknownFormatMsg e1 e2 = a ++ e1 ++ b ++ e2 ++ c) := by
  have hrun : assemble ext cfg text = ([Ev.err (unknownFormatMsg e1 e2)], false) := by
    simp [assemble, h1, h2, lastErrorOf]
  refine ⟨hrun, ?_, ?_⟩
  · rw [hrun]; simp [outText]
  · exact ⟨"Input file has unknown format.\nError when attempting to convert to manifest: ",
      "\nError when attempting to convert to compatibility matrix: ", "\n", rfl⟩

theorem c7_unknown_format_witness :
    assemble extBase { outputMatrix := false, checkFile := none, env := envEmpty } "doc" =
      ([Ev.err (unknownFormatMsg "manifest syntax error" "matrix syntax error")], false) ∧
    outText (assemble extBase
      { outputMatrix := false, checkFile := none, env := envEmpty } "doc").1 = "" ∧
    (∃ a b c, unknownFormatMsg "manifest syntax error" "matrix syntax error" =
      a ++ "manifest syntax error" ++ b ++ "matrix syntax error" ++ c) :=
  c7_unknown_format extBase { outputMatrix := false, checkFile := none, env := envEmpty }
    "doc" "manifest syntax error" "matrix syntax error" (by simp [extBase]) (by simp [extBase])

def extManifestDev : Ext :=
  { extBase with parseHalManifest := fun _ => Except.ok mDev }

def extMatrixFwk : Ext :=
  { extBase with parseMatrix := fun _ => Except.ok mxFwk }

/-- C2: for a device manifest input with `BOARD_SEPOLICY_VERS` set to a
parseable version and no `-m` flag, the run writes the serialized manifest
whose `device.mSepolicyVersion` equals the parsed environment value, and,
when the optional reference check does not fail, exits successfully. -/
theorem c2_device_manifest_sepolicy (ext : Ext) (cfg : Config) (text s : String)
    (m : HalManifest) (v : Version)
    (hparse : ext.parseHalManifest text = Except.ok m)
    (htype : m.mType = SchemaType.DEVICE)
    (henv : cfg.env "BOARD_SEPOLICY_VERS" = some s)
    (hv : ext.parseVersion s = some v)
    (hm : cfg.outputMatrix = false)
    (href : refMatrixCheckPasses ext cfg
      { m with device := { m.device with mSepolicyVersion := v } }) :
    (assemble ext cfg text).2 = true ∧
    outText (assemble ext cfg text).1 =
      ext.serializeHalManifest
        { m with device := { m.device with mSepolicyVersion := v } } ∧
    ({ m with device := { m.device with mSepolicyVersion := v } } :
      HalManifest).device.mSepolicyVersion = v := by
  have hinj := injectManifest_device_ok ext cfg m s v htype henv hv
  have hchk := checkAgainstMatrix_passes ext cfg _ href
  have hA := assembleHalManifest_inj ext cfg m _ [] hinj
  have hok : (assembleHalManifest ext cfg m).2 = true := by
    rw [hA]; exact hchk.1
  have hrun := assemble_manifest_ok ext cfg text m hparse hok
  refine ⟨by rw [hrun], ?_, rfl⟩
  rw [hrun]
  rw [hA]
  simp [outText_append, emitManifest, hm, outText, hchk.2.1]

theorem c2_device_manifest_sepolicy_witness :
    (assemble extManifestDev
      { outputMatrix := false, checkFile := none, env := envFull } "doc").2 = true ∧
    outText (assemble extManifestDev
        { outputMatrix := false, checkFile := none, env := envFull } "doc").1 =
      extManifestDev.serializeHalManifest
        { mDev with device :=
          { mDev.device with mSepolicyVersion := { majorVer := 25, minorVer := 0 } } } ∧
    ({ mDev with device :=
        { mDev.device with mSepolicyVersion := { majorVer := 25, minorVer := 0 } } } :
      HalManifest).device.mSepolicyVersion = { majorVer := 25, minorVer := 0 } :=
  c2_device_manifest_sepolicy extManifestDev
    { outputMatrix := false, checkFile := none, env := envFull } "doc" "25.0"
    mDev { majorVer := 25, minorVer := 0 } rfl rfl rfl rfl rfl
    (by simp [refMatrixCheckPasses])

/-- C3: for an input that parses only as a framework matrix, when
`POLICYVERS` is absent from the environment or its value does not parse, the
run fails and nothing is written to the output stream. -/
theorem c3_framework_matrix_missing_policyvers (ext : Ext) (cfg : Config)
    (text e1 : String) (mx : CompatibilityMatrix)
    (hp : ext.parseHalManifest text = Except.error e1)
    (hq : ext.parseMatrix text = Except.ok mx)
    (htype : mx.mType = SchemaType.FRAMEWORK)
    (hP : (cfg.env "POLICYVERS").bind ext.parseKernelSepolicyVersion = none) :
    (assemble ext cfg text).2 = false ∧
    outText (assemble ext cfg text).1 = "" := by
  have hinj : ∃ evs, injectMatrix ext cfg mx = (evs, none) ∧ outText evs = "" := by
    cases h1 : cfg.env "BOARD_SEPOLICY_VERS" with
    | none =>
      exact ⟨[Ev.err ("Required " ++ "BOARD_SEPOLICY_VERS" ++ " flag.")],
        by simp [injectMatrix, htype, getFlag, h1], by simp [outText]⟩
    | some s =>
      cases h2 : ext.parseVersion s with
      | none =>
        exact ⟨[Ev.err ("Cannot parse " ++ s ++ ".")],
          by simp [injectMatrix, htype, getFlag, h1, h2], by simp [outText]⟩
      | some v =>
        cases h3 : cfg.env "POLICYVERS" with
        | none =>
          exact ⟨[Ev.err ("Required " ++ "POLICYVERS" ++ " flag.")],
            by simp [injectMatrix, htype, getFlag, h1, h2, h3], by simp [outText]⟩
        | some s2 =>
          rw [h3] at hP
          simp only [Option.some_bind] at hP
          exact ⟨[Ev.err ("Cannot parse " ++ s2 ++ ".")],
            by simp [injectMatrix, htype, getFlag, h1, h2, h3, hP], by simp [outText]⟩
  obtain ⟨evs, hi, ho⟩ := hinj
  have hfailEq := assembleCompatibilityMatrix_inj_fail ext cfg mx evs hi
  have hrun := assemble_noManifest_matrix_fail ext cfg text e1 mx hp hq (by rw [hfailEq])
  refine ⟨by rw [hrun], ?_⟩
  rw [hrun]
  rw [hfailEq]
  simp [outText_append, ho, outText]

theorem c3_framework_matrix_missing_policyvers_witness :
    (assemble extMatrixFwk
      { outputMatrix := false, checkFile := none,
        env := fun k => if k = "BOARD_SEPOLICY_VERS" then some "25.0" else none }
      "doc").2 = false ∧
    outText (assemble extMatrixFwk
      { outputMatrix := false, checkFile := none,
        env := fun k => if k = "BOARD_SEPOLICY_VERS" then some "25.0" else none }
      "doc").1 = "" :=
  c3_framework_matrix_missing_policyvers extMatrixFwk
    { outputMatrix := false, checkFile := none,
      env := fun k => if k = "BOARD_SEPOLICY_VERS" then some "25.0" else none }
    "doc" "manifest syntax error" mxFwk rfl rfl rfl rfl

def extSkel : Ext :=
  { extBase with
    parseHalManifest := fun _ => Except.ok mFwk,
    checkCompatibility := fun _ _ => Except.error "self-check failed" }

/-- C4: for a manifest assembled with `-m`, when the self-consistency check
of the synthesized matrix against the manifest fails, the `FATAL ERROR`
diagnostic goes to the error stream, the advisory comment block and the
serialized synthesized matrix are still written and flushed, and the run
still exits successfully (absent any other failure). -/
theorem c4_skeleton_selfcheck_nonfatal (ext : Ext) (cfg : Config)
    (text : String) (m m' : HalManifest) (evs : List Ev) (d : String)
    (hparse : ext.parseHalManifest text = Except.ok m)
    (hinj : injectManifest ext cfg m = (evs, some m'))
    (hm : cfg.outputMatrix = true)
    (hchk : ext.checkCompatibility m' (ext.generateCompatibleMatrix m') =
      Except.error d)
    (hc : cfg.checkFile = none) :
    assembleHalManifest ext cfg m =
      (evs ++ [Ev.err ("FATAL ERROR: cannot generate a compatible matrix: " ++ d),
        Ev.out (skeletonComment ++ ext.serializeMatrix (ext.generateCompatibleMatrix m')),
        Ev.flush], true) ∧
    (assemble ext cfg text).2 = true := by
  have hA := assembleHalManifest_inj ext cfg m m' evs hinj
  have hemit : emitManifest ext cfg m' =
      [Ev.err ("FATAL ERROR: cannot generate a compatible matrix: " ++ d),
        Ev.out (skeletonComment ++ ext.serializeMatrix (ext.generateCompatibleMatrix m')),
        Ev.flush] := by
    simp [emitManifest, hm, hchk]
  have hca : checkAgainstMatrix ext cfg m' = ([], true) := by
    simp [checkAgainstMatrix, hc]
  have hok : (assembleHalManifest ext cfg m).2 = true := by
    rw [hA, hca]
  refine ⟨?_, ?_⟩
  · rw [hA, hemit, hca]
    simp
  · rw [assemble_manifest_ok ext cfg text m hparse hok]

theorem c4_skeleton_selfcheck_nonfatal_witness :
    assembleHalManifest extSkel
      { outputMatrix := true, checkFile := none, env := envEmpty } mFwk =
      ([] ++
        [Ev.err ("FATAL ERROR: cannot generate a compatible matrix: " ++ "self-check failed"),
          Ev.out (skeletonComment ++
            extSkel.serializeMatrix (extSkel.generateCompatibleMatrix mFwk)),
          Ev.flush], true) ∧
    (assemble extSkel
      { outputMatrix := true, checkFile := none, env := envEmpty } "doc").2 = true :=
  c4_skeleton_selfcheck_nonfatal extSkel
    { outputMatrix := true, checkFile := none, env := envEmpty } "doc" mFwk mFwk
    [] "self-check failed" rfl rfl rfl rfl rfl

theorem injectMatrix_device (ext : Ext) (cfg : Config) (mx : CompatibilityMatrix)
    (h : mx.mType = SchemaType.DEVICE) :
    injectMatrix ext cfg mx = ([], some mx) := by
  simp [injectMatrix, h]

theorem flush_mem_emitManifest (ext : Ext) (cfg : Config) (m : HalManifest) :
    Ev.flush ∈ emitManifest ext cfg m := by
  unfold emitManifest
  cases ho : cfg.outputMatrix with
  | false => simp
  | true =>
    cases hcc : ext.checkCompatibility m (ext.generateCompatibleMatrix m) <;> simp [hcc]

theorem outText_checkAgainstMatrix (ext : Ext) (cfg : Config) (m : HalManifest) :
    outText (checkAgainstMatrix ext cfg m).1 = "" := by
  unfold checkAgainstMatrix
  cases hc : cfg.checkFile with
  | none => simp [outText]
  | some content =>
    cases hp : ext.parseMatrix content with
    | error e => simp [hp, outText]
    | ok cm =>
      cases hk : ext.checkCompatibility m cm <;> simp [hp, hk, outText]

theorem outText_checkAgainstManifest (ext : Ext) (cfg : Config)
    (mx : CompatibilityMatrix) :
    outText (checkAgainstManifest ext cfg mx).1 = "" := by
  unfold checkAgainstManifest
  cases hc : cfg.checkFile with
  | none => simp [outText]
  | some content =>
    cases hp : ext.parseHalManifest content with
    | error e => simp [hp, outText]
    | ok cm =>
      cases hk : ext.checkCompatibility cm mx <;> simp [hp, hk, outText]

def extRef : Ext :=
  { extBase with
    parseHalManifest := fun _ => Except.ok mFwk,
    parseMatrix := fun _ => Except.ok mxDev,
    checkCompatibility := fun _ _ => Except.error "bad" }

/-- C5: when a reference check file was supplied and opened, both assembly
procedures emit and flush the serialized primary document strictly before the
check-file read and compatibility check; when the reference parses but is
incompatible, the procedure fails while the whole output text of the run is
exactly what was written before the check. -/
theorem c5_emit_before_check (ext : Ext) (cfg : Config) (c : String)
    (m m' : HalManifest) (mx mx' : CompatibilityMatrix)
    (cm : CompatibilityMatrix) (chkm : HalManifest)
    (evm evx : List Ev) (d1 d2 : String)
    (hc : cfg.checkFile = some c)
    (him : injectManifest ext cfg m = (evm, some m'))
    (hpm : ext.parseMatrix c = Except.ok cm)
    (hk1 : ext.checkCompatibility m' cm = Except.error d1)
    (hix : injectMatrix ext cfg mx = (evx, some mx'))
    (hph : ext.parseHalManifest c = Except.ok chkm)
    (hk2 : ext.checkCompatibility chkm mx' = Except.error d2) :
    (assembleHalManifest ext cfg m =
      (evm ++ emitManifest ext cfg m' ++
        [Ev.readCheckFile, Ev.err ("Not compatible: " ++ d1)], false) ∧
     Ev.flush ∈ emitManifest ext cfg m' ∧
     outText (assembleHalManifest ext cfg m).1 =
       outText (evm ++ emitManifest ext cfg m')) ∧
    (assembleCompatibilityMatrix ext cfg mx =
      (evx ++ [Ev.out (ext.serializeMatrix mx'), Ev.flush] ++
        [Ev.readCheckFile, Ev.err ("Not compatible: " ++ d2)], false) ∧
     outText (assembleCompatibilityMatrix ext cfg mx).1 =
       outText (evx ++ [Ev.out (ext.serializeMatrix mx'), Ev.flush])) := by
  have hcam : checkAgainstMatrix ext cfg m' =
      ([Ev.readCheckFile, Ev.err ("Not compatible: " ++ d1)], false) := by
    simp [checkAgainstMatrix, hc, hpm, hk1]
  have hcax : checkAgainstManifest ext cfg mx' =
      ([Ev.readCheckFile, Ev.err ("Not compatible: " ++ d2)], false) := by
    simp [checkAgainstManifest, hc, hph, hk2]
  have hA := assembleHalManifest_inj ext cfg m m' evm him
  have hB := assembleCompatibilityMatrix_inj ext cfg mx mx' evx hix
  refine ⟨⟨?_, flush_mem_emitManifest ext cfg m', ?_⟩, ?_, ?_⟩
  · rw [hA, hcam]
  · rw [hA, hcam]
    simp [outText_append, outText]
  · rw [hB, hcax]
  · rw [hB, hcax]
    simp [outText_append, outText]

theorem c5_emit_before_check_witness :
    (assembleHalManifest extRef
      { outputMatrix := false, checkFile := some "chk", env := envEmpty } mFwk =
      ([] ++ emitManifest extRef
          { outputMatrix := false, checkFile := some "chk", env := envEmpty } mFwk ++
        [Ev.readCheckFile, Ev.err ("Not compatible: " ++ "bad")], false) ∧
     Ev.flush ∈ emitManifest extRef
       { outputMatrix := false, checkFile := some "chk", env := envEmpty } mFwk ∧
     outText (assembleHalManifest extRef
       { outputMatrix := false, checkFile := some "chk", env := envEmpty } mFwk).1 =
       outText ([] ++ emitManifest extRef
         { outputMatrix := false, checkFile := some "chk", env := envEmpty } mFwk)) ∧
    (assembleCompatibilityMatrix extRef
      { outputMatrix := false, checkFile := some "chk", env := envEmpty } mxDev =
      ([] ++ [Ev.out (extRef.serializeMatrix mxDev), Ev.flush] ++
        [Ev.readCheckFile, Ev.err ("Not compatible: " ++ "bad")], false) ∧
     outText (assembleCompatibilityMatrix extRef
       { outputMatrix := false, checkFile := some "chk", env := envEmpty } mxDev).1 =
       outText ([] ++ [Ev.out (extRef.serializeMatrix mxDev), Ev.flush])) :=
  c5_emit_before_check extRef
    { outputMatrix := false, checkFile := some "chk", env := envEmpty } "chk"
    mFwk mFwk mxDev mxDev mxDev mFwk [] [] "bad" "bad"
    rfl rfl rfl rfl rfl rfl rfl

def extDual : Ext :=
  { extBase with
    parseHalManifest := fun _ => Except.ok mDev,
    parseMatrix := fun _ => Except.ok mxDev }

/-- C1 (counterexample): an input that parses both as a manifest (a device
manifest, with `BOARD_SEPOLICY_VERS` unset) and as a matrix is not always
handled by the manifest path alone: manifest assembly fails, the run falls
through to matrix assembly, succeeds there, and the output stream carries the
matrix serialization. -/
theorem c1_counterexample :
    extDual.parseHalManifest "doc" = Except.ok mDev ∧
    extDual.parseMatrix "doc" = Except.ok mxDev ∧
    (assembleHalManifest extDual
      { outputMatrix := false, checkFile := none, env := envEmpty } mDev).2 = false ∧
    (assemble extDual
      { outputMatrix := false, checkFile := none, env := envEmpty } "doc").2 = true ∧
    outText (assemble extDual
      { outputMatrix := false, checkFile := none, env := envEmpty } "doc").1 =
      extDual.serializeMatrix mxDev := by
  refine ⟨rfl, rfl, rfl, rfl, rfl⟩

/-- C1 (amended): a text that parses successfully both as a manifest and as a
matrix is routed to manifest assembly first, and provided manifest assembly
succeeds, the run's trace and success are exactly those of manifest assembly —
the matrix assembly path is not taken. (When manifest assembly fails the run
falls through to the matrix path.) -/
theorem c1_manifest_priority (ext : Ext) (cfg : Config) (text : String)
    (m : HalManifest) (mx : CompatibilityMatrix)
    (hp : ext.parseHalManifest text = Except.ok m)
    (_hq : ext.parseMatrix text = Except.ok mx)
    (hok : (assembleHalManifest ext cfg m).2 = true) :
    assemble ext cfg text = ((assembleHalManifest ext cfg m).1, true) :=
  assemble_manifest_ok ext cfg text m hp hok

theorem c1_manifest_priority_witness :
    assemble extDual { outputMatrix := false, checkFile := none, env := envFull } "doc" =
      ((assembleHalManifest extDual
        { outputMatrix := false, checkFile := none, env := envFull } mDev).1, true) :=
  c1_manifest_priority extDual
    { outputMatrix := false, checkFile := none, env := envFull } "doc" mDev mxDev
    rfl rfl rfl

/-- C8 (counterexample): a framework manifest assembled with the `-m` flag
reads no environment variable, but the document written to the output stream
is not the parsed manifest: it is the advisory comment followed by the
synthesized matrix. -/
theorem c8_counterexample :
    mFwk.mType = SchemaType.FRAMEWORK ∧
    outText (assembleHalManifest extBase
      { outputMatrix := true, checkFile := none, env := envEmpty } mFwk).1 ≠
      extBase.serializeHalManifest mFwk := by
  refine ⟨rfl, ?_⟩
  decide

/-- C8 (amended): framework manifests and device matrices get no field
injection and their assembly is independent of the environment; absent the
`-m` flag the document written to the output stream is the parsed document
unchanged (with `-m`, a synthesized matrix is written instead, but the parsed
manifest is still not mutated). -/
theorem c8_no_injection_frame (ext : Ext) (cfg1 cfg2 : Config)
    (m : HalManifest) (mx : CompatibilityMatrix)
    (hm : m.mType = SchemaType.FRAMEWORK)
    (hx : mx.mType = SchemaType.DEVICE)
    (hout : cfg1.outputMatrix = false)
    (ho2 : cfg2.outputMatrix = cfg1.outputMatrix)
    (hc2 : cfg2.checkFile = cfg1.checkFile) :
    injectManifest ext cfg1 m = ([], some m) ∧
    injectMatrix ext cfg1 mx = ([], some mx) ∧
    assembleHalManifest ext cfg2 m = assembleHalManifest ext cfg1 m ∧
    assembleCompatibilityMatrix ext cfg2 mx = assembleCompatibilityMatrix ext cfg1 mx ∧
    outText (assembleHalManifest ext cfg1 m).1 = ext.serializeHalManifest m ∧
    outText (assembleCompatibilityMatrix ext cfg1 mx).1 = ext.serializeMatrix mx := by
  have hi1 : injectManifest ext cfg1 m = ([], some m) :=
    injectManifest_framework ext cfg1 m hm
  have hi2 : injectManifest ext cfg2 m = ([], some m) :=
    injectManifest_framework ext cfg2 m hm
  have hx1 : injectMatrix ext cfg1 mx = ([], some mx) :=
    injectMatrix_device ext cfg1 mx hx
  have hx2 : injectMatrix ext cfg2 mx = ([], some mx) :=
    injectMatrix_device ext cfg2 mx hx
  have emitEq : emitManifest ext cfg2 m = emitManifest ext cfg1 m := by
    unfold emitManifest; rw [ho2]
  have chkEq : checkAgainstMatrix ext cfg2 m = checkAgainstMatrix ext cfg1 m := by
    unfold checkAgainstMatrix; rw [hc2]
  have chkXEq : checkAgainstManifest ext cfg2 mx = checkAgainstManifest ext cfg1 mx := by
    unfold checkAgainstManifest; rw [hc2]
  refine ⟨hi1, hx1, ?_, ?_, ?_, ?_⟩
  · rw [assembleHalManifest_inj ext cfg2 m m [] hi2,
      assembleHalManifest_inj ext cfg1 m m [] hi1, emitEq, chkEq]
  · rw [assembleCompatibilityMatrix_inj ext cfg2 mx mx [] hx2,
      assembleCompatibilityMatrix_inj ext cfg1 mx mx [] hx1, chkXEq]
  · rw [assembleHalManifest_inj ext cfg1 m m [] hi1]
    simp [outText_append, emitManifest, hout, outText,
      outText_checkAgainstMatrix ext cfg1 m]
  · rw [assembleCompatibilityMatrix_inj ext cfg1 mx mx [] hx1]
    simp [outText_append, outText, outText_checkAgainstManifest ext cfg1 mx]

theorem c8_no_injection_frame_witness :
    injectManifest extBase { outputMatrix := false, checkFile := none, env := envFull }
      mFwk = ([], some mFwk) ∧
    injectMatrix extBase { outputMatrix := false, checkFile := none, env := envFull }
      mxDev = ([], some mxDev) ∧
    assembleHalManifest extBase
      { outputMatrix := false, checkFile := none, env := envEmpty } mFwk =
      assembleHalManifest extBase
        { outputMatrix := false, checkFile := none, env := envFull } mFwk ∧
    assembleCompatibilityMatrix extBase
      { outputMatrix := false, checkFile := none, env := envEmpty } mxDev =
      assembleCompatibilityMatrix extBase
        { outputMatrix := false, checkFile := none, env := envFull } mxDev ∧
    outText (assembleHalManifest extBase
      { outputMatrix := false, checkFile := none, env := envFull } mFwk).1 =
      extBase.serializeHalManifest mFwk ∧
    outText (assembleCompatibilityMatrix extBase
      { outputMatrix := false, checkFile := none, env := envFull } mxDev).1 =
      extBase.serializeMatrix mxDev :=
  c8_no_injection_frame extBase
    { outputMatrix := false, checkFile := none, env := envFull }
    { outputMatrix := false, checkFile := none, env := envEmpty }
    mFwk mxDev rfl rfl rfl rfl rfl

/-- C9: when the input parses as a manifest but manifest assembly fails, the
run retries the same input as a matrix; when that matrix assembly succeeds
the run succeeds, its trace is the manifest-path trace followed by the
matrix-path trace, and the serialized (injected) matrix is written — so a
dual-valid document is not necessarily treated as a manifest. -/
theorem c9_fallthrough_to_matrix (ext : Ext) (cfg : Config) (text : String)
    (m : HalManifest) (mx : CompatibilityMatrix)
    (hp : ext.parseHalManifest text = Except.ok m)
    (hfail : (assembleHalManifest ext cfg m).2 = false)
    (hq : ext.parseMatrix text = Except.ok mx)
    (hok : (assembleCompatibilityMatrix ext cfg mx).2 = true) :
    assemble ext cfg text =
      ((assembleHalManifest ext cfg m).1 ++
        (assembleCompatibilityMatrix ext cfg mx).1, true) ∧
    (∃ mx', (injectMatrix ext cfg mx).2 = some mx' ∧
      Ev.out (ext.serializeMatrix mx') ∈ (assemble ext cfg text).1) := by
  have hrun := assemble_fallthrough_ok ext cfg text m mx hp hfail hq hok
  refine ⟨hrun, ?_⟩
  cases hi : injectMatrix ext cfg mx with
  | mk evs o =>
    cases o with
    | none =>
      exact absurd hok (by rw [assembleCompatibilityMatrix_inj_fail ext cfg mx evs hi]; simp)
    | some mx' =>
      refine ⟨mx', rfl, ?_⟩
      rw [hrun]
      rw [assembleCompatibilityMatrix_inj ext cfg mx mx' evs hi]
      simp

theorem c9_fallthrough_to_matrix_witness :
    assemble extDual { outputMatrix := false, checkFile := none, env := envEmpty } "doc" =
      ((assembleHalManifest extDual
        { outputMatrix := false, checkFile := none, env := envEmpty } mDev).1 ++
        (assembleCompatibilityMatrix extDual
          { outputMatrix := false, checkFile := none, env := envEmpty } mxDev).1, true) ∧
    (∃ mx', (injectMatrix extDual
        { outputMatrix := false, checkFile := none, env := envEmpty } mxDev).2 = some mx' ∧
      Ev.out (extDual.serializeMatrix mx') ∈
        (assemble extDual
          { outputMatrix := false, checkFile := none, env := envEmpty } "doc").1) :=
  c9_fallthrough_to_matrix extDual
    { outputMatrix := false, checkFile := none, env := envEmpty } "doc" mDev mxDev
    rfl rfl rfl rfl

/-- C10: for a framework matrix whose two required flags both parse, flag
injection replaces the whole `framework.mSepolicy` with the parsed
`POLICYVERS` kernel version and the singleton userspace pair
(major, minor) of the parsed `BOARD_SEPOLICY_VERS` value, discarding whatever
security-policy requirement the parsed input carried, and the serialized
output is that overwritten matrix. -/
theorem c10_matrix_sepolicy_overwrite (ext : Ext) (cfg : Config)
    (mx : CompatibilityMatrix) (s1 s2 : String) (v : Version)
    (kv : KernelSepolicyVersion)
    (htype : mx.mType = SchemaType.FRAMEWORK)
    (h1 : cfg.env "BOARD_SEPOLICY_VERS" = some s1)
    (hv : ext.parseVersion s1 = some v)
    (h2 : cfg.env "POLICYVERS" = some s2)
    (hk : ext.parseKernelSepolicyVersion s2 = some kv) :
    injectMatrix ext cfg mx =
      ([], some { mx with framework :=
        { mSepolicy := { kernelSepolicyVersion := kv,
                         sepolicyVersions := [(v.majorVer, v.minorVer)] } } }) ∧
    outText (assembleCompatibilityMatrix ext cfg mx).1 =
      ext.serializeMatrix { mx with framework :=
        { mSepolicy := { kernelSepolicyVersion := kv,
                         sepolicyVersions := [(v.majorVer, v.minorVer)] } } } := by
  have hi : injectMatrix ext cfg mx =
      ([], some { mx with framework :=
        { mSepolicy := { kernelSepolicyVersion := kv,
                         sepolicyVersions := [(v.majorVer, v.minorVer)] } } }) := by
    simp [injectMatrix, htype, getFlag, h1, hv, h2, hk]
  refine ⟨hi, ?_⟩
  rw [assembleCompatibilityMatrix_inj ext cfg mx _ [] hi]
  simp [outText_append, outText, outText_checkAgainstManifest]

theorem c10_matrix_sepolicy_overwrite_witness :
    injectMatrix extBase { outputMatrix := false, checkFile := none, env := envFull }
      mxFwk =
      ([], some { mxFwk with framework :=
        { mSepolicy := { kernelSepolicyVersion := 30,
                         sepolicyVersions := [(25, 0)] } } }) ∧
    outText (assembleCompatibilityMatrix extBase
      { outputMatrix := false, checkFile := none, env := envFull } mxFwk).1 =
      extBase.serializeMatrix { mxFwk with framework :=
        { mSepolicy := { kernelSepolicyVersion := 30,
                         sepolicyVersions := [(25, 0)] } } } :=
  c10_matrix_sepolicy_overwrite extBase
    { outputMatrix := false, checkFile := none, env := envFull } mxFwk
    "25.0" "30" { majorVer := 25, minorVer := 0 } 30 rfl rfl rfl rfl rfl

end AssembleVintf
